import Mathlib

/-!
Verification development for the drone state-simulation and broadcast
subsystem. The definitions below are shallow embeddings of the Python
sources: `backend/dynamic_data.py` (class `DroneDataManager`),
`backend/api/drone_control.py` (the Flask route handlers and their
module-level `drone_state`), and `dronecore/communication.py` (the
bounded channel queues of `CommunicationManager`). Python floats are
embedded as exact rationals; `datetime.now()` is threaded as an abstract
natural-number timestamp; calls to `random.uniform` are threaded as
explicit parameters (a `Rand` record per tick). Dict-valued command
results become a `success` flag plus message, matching the
`{'success': bool, 'message': str}` dicts of the source.
-/

namespace DroneSystem

/-- A position record `{'lat': .., 'lng': .., 'alt': ..}`. -/
structure Pos where
  lat : ℚ
  lng : ℚ
  alt : ℚ
deriving DecidableEq, Repr

/-- An entry of `DroneDataManager.alerts`, as built by `add_alert`. -/
structure Alert where
  id : ℕ
  message : String
  severity : String
  type : String
  timestamp : ℕ
deriving DecidableEq, Repr

/-- The `{'success': .., 'message': ..}` dict returned by the
`DroneDataManager` command methods. -/
structure CmdResult where
  success : Bool
  message : String
deriving DecidableEq, Repr

/-- The per-tick draws of `random.uniform` / `random.randint` used by
`_update_flight_data` (position drift, heading delta, speed). -/
structure Rand where
  dLat : ℚ
  dLng : ℚ
  dAlt : ℚ
  dHeading : ℚ
  speedMission : ℚ
  speedIdle : ℚ
deriving DecidableEq, Repr

/-- The mutable fields of `DroneDataManager` (from `__init__`). -/
structure DroneState where
  basePosition : Pos
  currentPosition : Pos
  missionActive : Bool
  flightTime : ℕ
  batteryDrainRate : ℚ
  initialBattery : ℚ
  armed : Bool
  flying : Bool
  mode : String
  speed : ℚ
  heading : ℚ
  missionWaypoints : List Pos
  currentWaypoint : ℕ
  alerts : List Alert
deriving DecidableEq, Repr

/-- `DroneDataManager.__init__`: base position Islamabad, battery 100,
drain rate 0.1 %/minute, disarmed, not flying, STABILIZE mode. -/
def initState : DroneState :=
  { basePosition := ⟨336844 / 10000, 730479 / 10000, 0⟩
    currentPosition := ⟨336844 / 10000, 730479 / 10000, 0⟩
    missionActive := false
    flightTime := 0
    batteryDrainRate := 1 / 10
    initialBattery := 100
    armed := false
    flying := false
    mode := "STABILIZE"
    speed := 0
    heading := 0
    missionWaypoints := []
    currentWaypoint := 0
    alerts := [] }

/-- The alert dict built inside `add_alert`: its id is
`len(self.alerts) + 1` computed before the append. -/
def mkAlert (nAlerts : ℕ) (message severity : String) (alertType : Option String)
    (now : ℕ) : Alert :=
  { id := nAlerts + 1
    message := message
    severity := severity
    type := alertType.getD "general"
    timestamp := now }

/-- `add_alert`'s trimming step: `if len(self.alerts) > 50:
self.alerts = self.alerts[-50:]` (keep the newest 50). -/
def trimAlerts (l : List Alert) : List Alert :=
  if l.length > 50 then l.drop (l.length - 50) else l

/-- `DroneDataManager.add_alert(message, severity, alert_type)`. -/
def addAlert (s : DroneState) (message severity : String)
    (alertType : Option String) (now : ℕ) : DroneState :=
  { s with alerts :=
      trimAlerts (s.alerts ++ [mkAlert s.alerts.length message severity alertType now]) }

/-- `DroneDataManager.arm_drone`: refuses when `initial_battery < 15`,
otherwise arms and sets mode `'GUIDED'`. -/
def armDrone (s : DroneState) (now : ℕ) : DroneState × CmdResult :=
  if s.initialBattery < 15 then
    (s, ⟨false, "Battery too low to arm"⟩)
  else
    (addAlert { s with armed := true, mode := "GUIDED" }
      "Drone armed successfully" "info" none now,
     ⟨true, "Drone armed successfully"⟩)

/-- `DroneDataManager.disarm_drone`. -/
def disarmDrone (s : DroneState) (now : ℕ) : DroneState × CmdResult :=
  if s.flying then
    (s, ⟨false, "Cannot disarm while flying"⟩)
  else
    (addAlert { s with armed := false, mode := "STABILIZE" }
      "Drone disarmed" "info" none now,
     ⟨true, "Drone disarmed successfully"⟩)

/-- `DroneDataManager.takeoff(altitude)`: only checks `armed`; there is
no range check on the altitude in this method. -/
def takeoff (s : DroneState) (altitude : ℚ) (now : ℕ) : DroneState × CmdResult :=
  if s.armed = false then
    (s, ⟨false, "Drone must be armed first"⟩)
  else
    (addAlert
      { s with flying := true
               currentPosition := { s.currentPosition with alt := altitude }
               mode := "GUIDED" }
      ("Takeoff to " ++ toString altitude ++ "m initiated") "info" none now,
     ⟨true, "Taking off to " ++ toString altitude ++ "m"⟩)

/-- `DroneDataManager.land`. -/
def land (s : DroneState) (now : ℕ) : DroneState × CmdResult :=
  if s.flying = false then
    (s, ⟨false, "Drone is not flying"⟩)
  else
    (addAlert
      { s with flying := false
               currentPosition := { s.currentPosition with alt := 0 }
               speed := 0
               missionActive := false }
      "Landing initiated" "info" none now,
     ⟨true, "Landing initiated"⟩)

/-- `DroneDataManager.goto_position(lat, lng, alt)`: installs a
single-waypoint mission.  The float distance computed for the response
message (via `math.cos`/`math.sqrt`) only feeds the message text and is
abstracted here. -/
def gotoPosition (s : DroneState) (lat lng alt : ℚ) : DroneState × CmdResult :=
  if s.flying = false then
    (s, ⟨false, "Drone must be flying"⟩)
  else
    ({ s with missionWaypoints := [⟨lat, lng, alt⟩]
              currentWaypoint := 0
              missionActive := true },
     ⟨true, "Navigating to position"⟩)

/-- `DroneDataManager.start_mission(waypoints)`. -/
def startMission (s : DroneState) (waypoints : List Pos) (now : ℕ) :
    DroneState × CmdResult :=
  if s.flying = false then
    (s, ⟨false, "Drone must be flying to start mission"⟩)
  else
    (addAlert
      { s with missionWaypoints := waypoints
               currentWaypoint := 0
               missionActive := true }
      ("Mission started with " ++ toString waypoints.length ++ " waypoints")
      "info" none now,
     ⟨true, "Mission started with " ++ toString waypoints.length ++ " waypoints"⟩)

/-! ### The route-handler state of `backend/api/drone_control.py`

The Flask blueprint keeps its own module-level `drone_state` dict with
fields `armed`, `flying`, `mode`, `position`, `battery`, `last_command`;
it has no mission and no alert buffer. Error responses are
`({'error': ...}, 400)`; successes `({'success': True, ...}, 200)`. -/

/-- The module-level `drone_state` dict of `drone_control.py`. -/
structure ApiState where
  armed : Bool
  flying : Bool
  mode : String
  position : Pos
  battery : ℚ
  lastCommand : Option String
deriving DecidableEq, Repr

/-- The HTTP response of a route handler: success flag, message text
and HTTP status code. -/
structure ApiResult where
  success : Bool
  message : String
  status : ℕ
deriving DecidableEq, Repr

/-- The initial `drone_state` of `drone_control.py`. -/
def apiInitState : ApiState :=
  { armed := false
    flying := false
    mode := "STABILIZE"
    position := ⟨336844 / 10000, 730479 / 10000, 0⟩
    battery := 85
    lastCommand := none }

/-- `MAX_ALTITUDE` from `backend/config.py`: `int(os.environ.get('MAX_ALTITUDE', 120))`. -/
def defaultMaxAltitude : ℚ := 120

/-- The `/arm` route handler. -/
def apiArm (s : ApiState) : ApiState × ApiResult :=
  if s.armed = true then
    (s, ⟨false, "Drone is already armed", 400⟩)
  else
    ({ s with armed := true, mode := "ARMED", lastCommand := some "arm" },
     ⟨true, "Drone armed successfully", 200⟩)

/-- The `/takeoff` route handler: checks `armed`, then `flying`, then
`altitude > MAX_ALTITUDE`; only then mutates the state. -/
def apiTakeoff (maxAltitude : ℚ) (s : ApiState) (altitude : ℚ) :
    ApiState × ApiResult :=
  if s.armed = false then
    (s, ⟨false, "Drone must be armed before takeoff", 400⟩)
  else if s.flying = true then
    (s, ⟨false, "Drone is already flying", 400⟩)
  else if maxAltitude < altitude then
    (s, ⟨false, "Altitude exceeds maximum limit", 400⟩)
  else
    ({ s with flying := true
              mode := "GUIDED"
              position := { s.position with alt := altitude }
              lastCommand := some ("takeoff:" ++ toString altitude) },
     ⟨true, "Taking off to " ++ toString altitude ++ "m", 200⟩)

/-- The `/emergency-stop` route handler: unconditionally disarms, stops
flight and sets mode `'EMERGENCY_STOP'`; it touches no mission and
emits no alert (the handler's state has neither). -/
def emergencyStop (s : ApiState) : ApiState × ApiResult :=
  ({ s with armed := false
            flying := false
            mode := "EMERGENCY_STOP"
            lastCommand := some "emergency_stop" },
   ⟨true, "Emergency stop activated", 200⟩)

/-! ### The channel queues of `dronecore/communication.py`

`CommunicationManager.__init__` creates `asyncio.Queue` instances with
`maxsize` 100 (telemetry), 10 (video), 50 (detections) and 20 (alerts).
Every producer, `send_alert` included, publishes with
`if not queue.full(): await queue.put(item)`: a full queue silently
discards the new item. A queue is embedded as the list of its items,
oldest first. -/

/-- Capacity of the alert queue (`asyncio.Queue(maxsize=20)`). -/
def alertQueueCapacity : ℕ := 20

/-- Capacity of the telemetry queue (`asyncio.Queue(maxsize=100)`). -/
def telemetryQueueCapacity : ℕ := 100

/-- The alert dict built by `CommunicationManager.send_alert`. -/
structure AlertMsg where
  type : String
  message : String
  severity : ℤ
  timestamp : ℕ
deriving DecidableEq, Repr

/-- `CommunicationManager.send_alert`: enqueue only when the alert
queue is not full; a full queue drops the alert. -/
def sendAlert (q : List AlertMsg) (alertType message : String) (severity : ℤ)
    (now : ℕ) : List AlertMsg :=
  if q.length < alertQueueCapacity then q ++ [⟨alertType, message, severity, now⟩]
  else q

/-- `CommunicationManager.broadcast_telemetry`: enqueue only when the
telemetry queue is not full; a full queue drops the new message. -/
def broadcastTelemetry {α : Type} (q : List α) (m : α) : List α :=
  if q.length < telemetryQueueCapacity then q ++ [m] else q

/-- A sequence of `broadcast_telemetry` publishes with no consumer
draining the queue. -/
def publishAllTelemetry {α : Type} (q : List α) (ms : List α) : List α :=
  ms.foldl broadcastTelemetry q

/-! ### The update loop of `DroneDataManager`

`_update_loop` runs once per second: `if self.flying:
self._update_flight_data()` then `self._update_system_data()`. -/

/-- The predicate of the low-battery deduplication check
`any(a['type'] == 'low_battery' for a in self.alerts)`. -/
def lowBatteryP : Alert → Bool := fun a => a.type == "low_battery"

/-- Per-axis movement of `_simulate_mission_movement`: step toward the
target when the remaining difference exceeds the step size, as in
`if abs(diff) > step: pos += step if diff > 0 else -step`. -/
def axMove (cur target step : ℚ) : ℚ :=
  if step < |target - cur| then
    cur + (if 0 < target - cur then step else -step)
  else cur

/-- `move_speed = 0.00005` degrees per second. -/
def moveSpeed : ℚ := 5 / 100000

/-- `DroneDataManager._simulate_mission_movement`: move toward
`waypoints[current_waypoint]` by a fixed per-axis step, then check the
pre-move differences against the arrival tolerances; on arriving at the
last waypoint, deactivate the mission and emit the completion alert. -/
def simulateMissionMovement (s : DroneState) (now : ℕ) : DroneState :=
  match s.missionWaypoints.get? s.currentWaypoint with
  | none => s
  | some target =>
    let latDiff := target.lat - s.currentPosition.lat
    let lngDiff := target.lng - s.currentPosition.lng
    let altDiff := target.alt - s.currentPosition.alt
    let s1 := { s with currentPosition :=
        ⟨axMove s.currentPosition.lat target.lat moveSpeed,
         axMove s.currentPosition.lng target.lng moveSpeed,
         axMove s.currentPosition.alt target.alt 1⟩ }
    if |latDiff| < moveSpeed * 2 ∧ |lngDiff| < moveSpeed * 2 ∧ |altDiff| < 2 then
      let s2 := { s1 with currentWaypoint := s1.currentWaypoint + 1 }
      if s2.missionWaypoints.length ≤ s2.currentWaypoint then
        addAlert { s2 with missionActive := false }
          "Mission completed successfully" "info" none now
      else s2
    else s1

/-- Python's float modulo (sign of the result follows the modulus):
used for `self.heading % 360`. -/
def qmod (x m : ℚ) : ℚ := x - m * ⌊x / m⌋

/-- `DroneDataManager._update_flight_data`: bump flight time, move on
the mission (or drift randomly), update heading and speed. -/
def updateFlightData (s : DroneState) (r : Rand) (now : ℕ) : DroneState :=
  let s0 := { s with flightTime := s.flightTime + 1 }
  let s1 :=
    if s0.missionActive && !s0.missionWaypoints.isEmpty then
      simulateMissionMovement s0 now
    else
      { s0 with currentPosition :=
          ⟨s0.currentPosition.lat + r.dLat,
           s0.currentPosition.lng + r.dLng,
           s0.currentPosition.alt + r.dAlt⟩ }
  let s2 := { s1 with heading := qmod (s1.heading + r.dHeading) 360 }
  { s2 with speed := if s2.missionActive then r.speedMission else r.speedIdle }

/-- `DroneDataManager._update_system_data`: while flying, drain the
battery by `battery_drain_rate / 60` and emit the low-battery warning
when below 20 with no `low_battery` alert currently in the buffer. -/
def updateSystemData (s : DroneState) (now : ℕ) : DroneState :=
  if s.flying then
    let s1 := { s with initialBattery := s.initialBattery - s.batteryDrainRate / 60 }
    if s1.initialBattery < 20 ∧ s1.alerts.any lowBatteryP = false then
      addAlert s1 "Low battery warning" "warning" (some "low_battery") now
    else s1
  else s

/-- One iteration of `_update_loop` (one tick). -/
def tick (s : DroneState) (r : Rand) (now : ℕ) : DroneState :=
  let s1 := if s.flying then updateFlightData s r now else s
  updateSystemData s1 now

/-- Zero random draws: the deterministic instantiation of a tick. -/
def r0 : Rand := ⟨0, 0, 0, 0, 0, 0⟩

/-- Iterated ticks; `f n` supplies the random draws and the timestamp
of the `n`-th tick. -/
def tickSeq (s : DroneState) (f : ℕ → Rand × ℕ) : ℕ → DroneState
  | 0 => s
  | n + 1 => tick (tickSeq s f n) (f n).1 (f n).2

/-- States of the manager reachable from `__init__` through ticks of
the update loop and the public command methods. -/
inductive Reachable : DroneState → Prop
  | init : Reachable initState
  | tick {s} (r : Rand) (now : ℕ) : Reachable s → Reachable (tick s r now)
  | arm {s} (now : ℕ) : Reachable s → Reachable (armDrone s now).1
  | disarm {s} (now : ℕ) : Reachable s → Reachable (disarmDrone s now).1
  | takeoff {s} (altitude : ℚ) (now : ℕ) : Reachable s →
      Reachable (takeoff s altitude now).1
  | land {s} (now : ℕ) : Reachable s → Reachable (land s now).1
  | goto {s} (lat lng alt : ℚ) : Reachable s →
      Reachable (gotoPosition s lat lng alt).1
  | mission {s} (waypoints : List Pos) (now : ℕ) : Reachable s →
      Reachable (startMission s waypoints now).1

/-! ### Snapshot battery fields (`get_drone_status` / `get_telemetry`)

`get_drone_status` reports `'percentage': max(0, round(self.initial_battery, 1))`
and `get_telemetry` reports `'remaining': max(0, round(self.initial_battery, 1))`.
Python's `round` (banker's rounding, ties to even) is embedded exactly
on rationals. -/

/-- Python's `round(x)` to an integer: nearest, ties to even. -/
def pyRoundInt (x : ℚ) : ℤ :=
  let f := ⌊x⌋
  let frac := x - f
  if frac < 1 / 2 then f
  else if 1 / 2 < frac then f + 1
  else if f % 2 = 0 then f else f + 1

/-- Python's `round(x, 1)`. -/
def roundTo1 (x : ℚ) : ℚ := (pyRoundInt (x * 10) : ℚ) / 10

/-- The `battery.percentage` field of `get_drone_status`. -/
def getDroneStatusBatteryPercentage (s : DroneState) : ℚ :=
  max 0 (roundTo1 s.initialBattery)

/-- The `battery.remaining` field of `get_telemetry`. -/
def getTelemetryBatteryRemaining (s : DroneState) : ℚ :=
  max 0 (roundTo1 s.initialBattery)

/-! ### Concrete states and traces used by the claim analyses -/

/-- A drone state with the battery too low to arm. -/
def lowBatteryState : DroneState := { initState with initialBattery := 10 }

/-- The route-handler state right after a successful `/arm`. -/
def apiArmedState : ApiState := (apiArm apiInitState).1

/-- The route-handler state right after a successful `/takeoff` to
10 m: armed and flying. -/
def apiFlyingState : ApiState := (apiTakeoff defaultMaxAltitude apiArmedState 10).1

/-- A full alert channel queue (20 messages, the queue's capacity). -/
def fullAlertQueue : List AlertMsg := (List.range 20).map (fun i => ⟨"t", "m", 1, i⟩)

/-- Iterated `add_alert` calls with a fixed message. -/
def addAlertIter (s : DroneState) : ℕ → DroneState
  | 0 => s
  | n + 1 => addAlert (addAlertIter s n) "x" "info" none 0

/-- A flying state just below the low-battery threshold with an empty
alert buffer. -/
def c4s0 : DroneState :=
  { initState with
    armed := true
    flying := true
    mode := "GUIDED"
    initialBattery := 39 / 2 }

/-- Repeated `arm_drone` commands (each one appends an info alert). -/
def armTimes (s : DroneState) : ℕ → DroneState
  | 0 => s
  | n + 1 => (armDrone (armTimes s n) (n + 2)).1

/-- After one tick of `c4s0`: the first low-battery warning is emitted. -/
def c4s1 : DroneState := tick c4s0 r0 1

/-- 50 interleaved `arm_drone` commands evict the low-battery alert
from the 50-entry buffer. -/
def c4s2 : DroneState := armTimes c4s1 50

/-- The next tick after the eviction. -/
def c4s3 : DroneState := tick c4s2 r0 52

/-- The alert-buffer evolution of repeated `arm_drone` calls, at the
list level (each call appends one "Drone armed successfully" alert and
trims to 50). -/
def armAlertsAux (l : List Alert) : ℕ → List Alert
  | 0 => l
  | n + 1 =>
      trimAlerts (armAlertsAux l n ++
        [mkAlert (armAlertsAux l n).length "Drone armed successfully" "info" none (n + 2)])

/-- The single mission waypoint `(33.6844, 73.0479, 20)` of the claim. -/
def missionTarget : Pos := ⟨336844 / 10000, 730479 / 10000, 20⟩

/-- Recognizer for the mission-completion alert. -/
def missionCompleteP : Alert → Bool :=
  fun a => a.message == "Mission completed successfully" && a.severity == "info"

/-- Number of per-tick steps an axis still has to move before its
remaining difference is at most one step. -/
def axSteps (cur target step : ℚ) : ℕ :=
  if |target - cur| ≤ step then 0 else (⌈|target - cur| / step⌉ - 1).toNat

/-- Total remaining movement steps toward a waypoint, over the three
axes (lat and lng step `moveSpeed`, alt step 1). -/
def missionMeasure (wp : Pos) (s : DroneState) : ℕ :=
  axSteps s.currentPosition.lat wp.lat moveSpeed +
  axSteps s.currentPosition.lng wp.lng moveSpeed +
  axSteps s.currentPosition.alt wp.alt 1

/-- A flying state with the single-waypoint mission of the claim
installed and the drone at the base position. -/
def c6s0 : DroneState :=
  { initState with
    armed := true
    flying := true
    mode := "GUIDED"
    missionActive := true
    missionWaypoints := [missionTarget]
    currentWaypoint := 0 }

/-- Deterministic tick inputs: zero random draws, timestamp = index. -/
def detTicks : ℕ → Rand × ℕ := fun i => (r0, i)

/-- The state after `arm_drone()` then `takeoff(10)` from the initial
state: armed and flying with a full battery. -/
def flyingState : DroneState := (takeoff (armDrone initState 0).1 10 0).1

/-! ## Theorems -/

/-- Trimming does nothing to a buffer within capacity. -/
theorem trimAlerts_of_le (l : List Alert) (h : l.length ≤ 50) : trimAlerts l = l :=
  if_neg (by omega)

/-- Trimming a 51-entry buffer drops exactly the oldest entry. -/
theorem trimAlerts_of_eq51 (l : List Alert) (h : l.length = 51) :
    trimAlerts l = l.drop 1 := by
  unfold trimAlerts
  rw [if_pos (by omega), h]

/-- With at most 100 queued messages, a run of telemetry publishes
appends exactly the messages that still fit and drops the rest. -/
theorem publishAllTelemetry_eq {α : Type} (ms : List α) :
    ∀ q : List α, q.length ≤ 100 →
      publishAllTelemetry q ms = q ++ ms.take (100 - q.length) := by
  induction ms with
  | nil => intro q _; simp [publishAllTelemetry]
  | cons m rest ih =>
    intro q hq
    by_cases h : q.length < 100
    · have hstep : broadcastTelemetry q m = q ++ [m] := if_pos h
      have hlen : (q ++ [m]).length ≤ 100 := by simp; omega
      have := ih (q ++ [m]) hlen
      simp only [publishAllTelemetry, List.foldl_cons] at *
      rw [hstep, this]
      obtain ⟨k, hk⟩ : ∃ k, 100 - q.length = k + 1 := ⟨99 - q.length, by omega⟩
      have hk' : 100 - (q ++ [m]).length = k := by simp; omega
      rw [hk, hk', List.take_succ_cons, List.append_assoc]
      rfl
    · have hstep : broadcastTelemetry q m = q :=
        if_neg (by simpa [telemetryQueueCapacity] using h)
      have h100 : q.length = 100 := by omega
      simp only [publishAllTelemetry, List.foldl_cons] at *
      rw [hstep, ih q hq, h100]
      simp

/-- C8: the claim says a full telemetry queue retains the 100
most-recent messages and drops the oldest. The code
(`broadcast_telemetry`) does the opposite: publishing 150 messages into
the empty capacity-100 queue retains the FIRST 100; message 0 is kept
and message 149 is dropped. -/
theorem c8_counterexample :
    publishAllTelemetry ([] : List ℕ) (List.range 150) = List.range 100 ∧
    (publishAllTelemetry ([] : List ℕ) (List.range 150)).contains 0 = true ∧
    (publishAllTelemetry ([] : List ℕ) (List.range 150)).contains 149 = false := by
  set_option maxRecDepth 10000 in decide

/-- C8 (amended): publishing 150 telemetry messages into the empty
capacity-100 queue with no consumer retains exactly the first 100
messages (each later publish is dropped: drop-newest, not
drop-oldest), and the queue length never exceeds 100 at any point. -/
theorem c8_telemetry_overflow {α : Type} (ms : List α) (h : ms.length = 150) :
    publishAllTelemetry ([] : List α) ms = ms.take 100 ∧
    (publishAllTelemetry ([] : List α) ms).length = 100 ∧
    ∀ n : ℕ, (publishAllTelemetry ([] : List α) (ms.take n)).length ≤ 100 := by
  have base := publishAllTelemetry_eq ms ([] : List α) (by simp)
  refine ⟨by simpa using base, ?_, ?_⟩
  · have : publishAllTelemetry ([] : List α) ms = ms.take 100 := by simpa using base
    rw [this, List.length_take, h]
    omega
  · intro n
    have := publishAllTelemetry_eq (ms.take n) ([] : List α) (by simp)
    simp only [List.nil_append, Nat.sub_zero] at this
    rw [this, List.length_take]
    omega

/-- Witness for `c8_telemetry_overflow` at the concrete message
sequence `0, 1, …, 149`. -/
theorem c8_witness :
    (List.range 150).length = 150 ∧
    publishAllTelemetry ([] : List ℕ) (List.range 150) = (List.range 150).take 100 :=
  ⟨by simp, (c8_telemetry_overflow (List.range 150) (by simp)).1⟩

/-- C5: the claim says publishing an alert never loses it (a full
alert queue blocks rather than discards). The code (`send_alert`)
checks `if not self.alert_queue.full()` and otherwise drops the alert:
on the full 20-entry queue the published alert is silently lost. -/
theorem c5_counterexample :
    sendAlert fullAlertQueue "critical" "battery failure" 5 99 = fullAlertQueue ∧
    (sendAlert fullAlertQueue "critical" "battery failure" 5 99).any
      (fun a => a.message == "battery failure") = false := by
  set_option maxRecDepth 4000 in decide

/-- C5 (amended): `send_alert` enqueues the alert only while the
20-capacity alert queue is not full; on a full queue the alert is
silently discarded (drop-newest, the same policy as the other
channels), and the producer never blocks. -/
theorem c5_send_alert_drops (q : List AlertMsg) (t m : String) (sev : ℤ) (now : ℕ) :
    (q.length < 20 → sendAlert q t m sev now = q ++ [⟨t, m, sev, now⟩]) ∧
    (20 ≤ q.length → sendAlert q t m sev now = q) := by
  constructor
  · intro h
    exact if_pos h
  · intro h
    exact if_neg (by simpa [alertQueueCapacity] using not_lt.mpr h)

/-- Witness for `c5_send_alert_drops`: a publish on the empty queue
enqueues, a publish on the full queue is dropped. -/
theorem c5_witness :
    (([] : List AlertMsg).length < 20 ∧
      sendAlert [] "t" "m" 1 0 = [⟨"t", "m", 1, 0⟩]) ∧
    (20 ≤ fullAlertQueue.length ∧
      sendAlert fullAlertQueue "t" "m" 1 0 = fullAlertQueue) :=
  ⟨⟨by decide, (c5_send_alert_drops [] "t" "m" 1 0).1 (by decide)⟩,
   ⟨by decide, (c5_send_alert_drops fullAlertQueue "t" "m" 1 0).2 (by decide)⟩⟩

/-- C1: the claim says `emergency_stop` forces `mode=EMERGENCY`, clears
the mission and emits a critical alert. The handler actually sets the
mode string `'EMERGENCY_STOP'` (not `'EMERGENCY'`); its state carries
no mission to clear and no alert is emitted anywhere in the handler. -/
theorem c1_counterexample :
    (emergencyStop apiInitState).1.mode = "EMERGENCY_STOP" ∧
    ¬ (emergencyStop apiInitState).1.mode = "EMERGENCY" := by
  decide

/-- C1 (amended): `emergency_stop` always succeeds (HTTP 200)
regardless of the current state, and forces `armed=false`,
`flying=false` and `mode='EMERGENCY_STOP'`; the handler's state has no
mission field to clear and the handler emits no alert. -/
theorem c1_emergency_stop (s : ApiState) :
    (emergencyStop s).2.success = true ∧
    (emergencyStop s).2.status = 200 ∧
    (emergencyStop s).1.armed = false ∧
    (emergencyStop s).1.flying = false ∧
    (emergencyStop s).1.mode = "EMERGENCY_STOP" :=
  ⟨rfl, rfl, rfl, rfl, rfl⟩

/-- C2: the claim says a successful `arm()` sets `mode=ARMED`. The code
(`DroneDataManager.arm_drone`) sets `mode='GUIDED'`: arming from the
initial state succeeds but the mode is `'GUIDED'`, not `'ARMED'`. -/
theorem c2_counterexample :
    (armDrone initState 0).2.success = true ∧
    (armDrone initState 0).1.armed = true ∧
    (armDrone initState 0).1.mode = "GUIDED" ∧
    ¬ (armDrone initState 0).1.mode = "ARMED" := by
  decide

/-- C2 (amended): for every state with `battery_pct < 15`, `arm()`
fails (result `success=False`); for every state with
`battery_pct ≥ 15` while not armed, `arm()` succeeds, sets
`armed=true` and sets `mode='GUIDED'` (not `ARMED`). -/
theorem c2_arm_battery_gate (s : DroneState) (now : ℕ) :
    (s.initialBattery < 15 → (armDrone s now).2.success = false) ∧
    (15 ≤ s.initialBattery → s.armed = false →
      (armDrone s now).2.success = true ∧
      (armDrone s now).1.armed = true ∧
      (armDrone s now).1.mode = "GUIDED") := by
  constructor
  · intro h
    simp [armDrone, if_pos h]
  · intro h _
    have hn : ¬ s.initialBattery < 15 := not_lt.mpr h
    simp [armDrone, if_neg hn, addAlert]

/-- Witness for `c2_arm_battery_gate`: arming fails at battery 10 and
succeeds (into mode GUIDED) at the initial battery of 100. -/
theorem c2_witness :
    (lowBatteryState.initialBattery < 15 ∧
      (armDrone lowBatteryState 0).2.success = false) ∧
    (15 ≤ initState.initialBattery ∧ initState.armed = false ∧
      (armDrone initState 0).1.mode = "GUIDED") :=
  ⟨⟨by decide, (c2_arm_battery_gate lowBatteryState 0).1 (by decide)⟩,
   ⟨by decide, rfl,
    ((c2_arm_battery_gate initState 0).2 (by decide) rfl).2.2⟩⟩

/-- C3: the claim says `takeoff(altitude)` fails with a validation
error for every altitude outside [1,100]. The route only rejects
altitudes above `MAX_ALTITUDE` (default 120): when armed and not
flying, takeoff to 110 — and even to 0 — succeeds. -/
theorem c3_counterexample :
    (apiTakeoff defaultMaxAltitude apiArmedState 110).2.success = true ∧
    (apiTakeoff defaultMaxAltitude apiArmedState 110).1.flying = true ∧
    (apiTakeoff defaultMaxAltitude apiArmedState 110).1.position.alt = 110 ∧
    ¬ ((110 : ℚ) ≤ 100) ∧
    (apiTakeoff defaultMaxAltitude apiArmedState 0).2.success = true ∧
    ¬ ((1 : ℚ) ≤ 0) := by
  decide

/-- C3 (amended): `takeoff(altitude)` fails while not armed and while
already flying, and fails only for altitudes above the configured
`MAX_ALTITUDE` (default 120); every failing call returns before any
state mutation, and any altitude up to `MAX_ALTITUDE` — including
values below 1 — is accepted when armed and not flying. -/
theorem c3_takeoff_validation (maxAlt : ℚ) (s : ApiState) (alt : ℚ) :
    ((apiTakeoff maxAlt s alt).2.success = false → (apiTakeoff maxAlt s alt).1 = s) ∧
    (maxAlt < alt → (apiTakeoff maxAlt s alt).2.success = false) ∧
    (s.armed = false → (apiTakeoff maxAlt s alt).2.success = false) ∧
    (s.flying = true → (apiTakeoff maxAlt s alt).2.success = false) ∧
    (s.armed = true → s.flying = false → alt ≤ maxAlt →
      (apiTakeoff maxAlt s alt).2.success = true ∧
      (apiTakeoff maxAlt s alt).1.flying = true ∧
      (apiTakeoff maxAlt s alt).1.mode = "GUIDED" ∧
      (apiTakeoff maxAlt s alt).1.position.alt = alt) := by
  unfold apiTakeoff
  split_ifs with h1 h2 h3
  · exact ⟨fun _ => rfl, fun _ => rfl, fun _ => rfl, fun _ => rfl,
      fun ha => absurd h1 (by simp [ha])⟩
  · exact ⟨fun _ => rfl, fun _ => rfl, fun ha => absurd ha h1, fun _ => rfl,
      fun _ hf => absurd h2 (by simp [hf])⟩
  · exact ⟨fun _ => rfl, fun _ => rfl, fun ha => absurd ha h1,
      fun hfl => absurd hfl h2,
      fun _ _ hle => absurd h3 (not_lt.mpr hle)⟩
  · exact ⟨fun hs => absurd hs (by decide), fun hlt => absurd hlt h3,
      fun ha => absurd ha h1, fun hfl => absurd hfl h2,
      fun _ _ _ => ⟨rfl, rfl, rfl, rfl⟩⟩

/-- Witness for `c3_takeoff_validation`: a disarmed call fails, a call
above the limit fails, a call while already flying fails, and an armed
call at altitude 10 succeeds. -/
theorem c3_witness :
    (apiInitState.armed = false ∧
      (apiTakeoff 120 apiInitState 10).2.success = false) ∧
    ((120 : ℚ) < 130 ∧ (apiTakeoff 120 apiArmedState 130).2.success = false) ∧
    (apiFlyingState.flying = true ∧
      (apiTakeoff 120 apiFlyingState 10).2.success = false) ∧
    (apiArmedState.armed = true ∧ apiArmedState.flying = false ∧ (10 : ℚ) ≤ 120 ∧
      (apiTakeoff 120 apiArmedState 10).2.success = true) :=
  ⟨⟨rfl, (c3_takeoff_validation 120 apiInitState 10).2.2.1 rfl⟩,
   ⟨by norm_num, (c3_takeoff_validation 120 apiArmedState 130).2.1 (by norm_num)⟩,
   ⟨by decide, (c3_takeoff_validation 120 apiFlyingState 10).2.2.2.1 (by decide)⟩,
   ⟨by decide, by decide, by norm_num,
    ((c3_takeoff_validation 120 apiArmedState 10).2.2.2.2 (by decide) (by decide)
      (by norm_num)).1⟩⟩

/-- C9: the claim says alert ids are strictly increasing. `add_alert`
computes `id = len(self.alerts) + 1` against the already-trimmed
buffer: once the ring holds 50 entries every further alert gets id 51.
After 52 alerts the two newest entries both carry id 51. -/
theorem c9_counterexample :
    ((addAlertIter initState 52).alerts.map (fun a => a.id)).drop 45
      = [48, 49, 50, 51, 51] ∧
    (addAlertIter initState 52).alerts.length = 50 := by
  set_option maxRecDepth 10000 in decide

/-- C9 (amended): each appended alert carries
`id = (current buffer length) + 1`, so ids strictly increase only while
the buffer is below its capacity of 50; once the buffer is full every
further alert receives id 51 and ids repeat. The buffer itself behaves
as an append-only ring: the new alert goes to the back and, beyond 50
entries, the oldest entry is evicted. -/
theorem c9_add_alert_ring (s : DroneState) (msg sev : String)
    (ty : Option String) (now : ℕ) (h : s.alerts.length ≤ 50) :
    (addAlert s msg sev ty now).alerts.length ≤ 50 ∧
    (s.alerts.length < 50 → (addAlert s msg sev ty now).alerts
        = s.alerts ++ [mkAlert s.alerts.length msg sev ty now]) ∧
    (s.alerts.length = 50 → (addAlert s msg sev ty now).alerts
        = s.alerts.drop 1 ++ [mkAlert s.alerts.length msg sev ty now]) ∧
    (mkAlert s.alerts.length msg sev ty now).id = s.alerts.length + 1 := by
  have halerts : (addAlert s msg sev ty now).alerts
      = trimAlerts (s.alerts ++ [mkAlert s.alerts.length msg sev ty now]) := rfl
  by_cases hlt : s.alerts.length < 50
  · have ht := trimAlerts_of_le (s.alerts ++ [mkAlert s.alerts.length msg sev ty now])
      (by simp; omega)
    refine ⟨?_, fun _ => by rw [halerts, ht], fun h50 => absurd h50 (by omega), rfl⟩
    rw [halerts, ht]
    simp
    omega
  · have h50 : s.alerts.length = 50 := by omega
    have ht := trimAlerts_of_eq51 (s.alerts ++ [mkAlert s.alerts.length msg sev ty now])
      (by simp [h50])
    have hdrop : (s.alerts ++ [mkAlert s.alerts.length msg sev ty now]).drop 1
        = s.alerts.drop 1 ++ [mkAlert s.alerts.length msg sev ty now] := by
      rw [List.drop_append_eq_append_drop]
      simp [h50]
    refine ⟨?_, fun hlt' => absurd hlt' hlt, fun _ => by rw [halerts, ht, hdrop], rfl⟩
    rw [halerts, ht, hdrop]
    simp [h50]

/-- Witness for `c9_add_alert_ring` at the empty initial buffer. -/
theorem c9_witness :
    initState.alerts.length ≤ 50 ∧
    initState.alerts.length < 50 ∧
    (addAlert initState "x" "info" none 0).alerts
      = initState.alerts ++ [mkAlert initState.alerts.length "x" "info" none 0] :=
  ⟨by decide, by decide,
   (c9_add_alert_ring initState "x" "info" none 0 (by decide)).2.1 (by decide)⟩

/-! ### Tick preservation lemmas -/

/-- `_simulate_mission_movement` never touches battery, drain rate or
the flying flag. -/
theorem simMove_preserves (s : DroneState) (now : ℕ) :
    (simulateMissionMovement s now).initialBattery = s.initialBattery ∧
    (simulateMissionMovement s now).batteryDrainRate = s.batteryDrainRate ∧
    (simulateMissionMovement s now).flying = s.flying := by
  simp only [simulateMissionMovement]
  split <;> try exact ⟨rfl, rfl, rfl⟩
  split <;> try exact ⟨rfl, rfl, rfl⟩
  split <;> exact ⟨rfl, rfl, rfl⟩

/-- `_update_flight_data` never touches battery, drain rate or the
flying flag. -/
theorem updateFlightData_preserves (s : DroneState) (r : Rand) (now : ℕ) :
    (updateFlightData s r now).initialBattery = s.initialBattery ∧
    (updateFlightData s r now).batteryDrainRate = s.batteryDrainRate ∧
    (updateFlightData s r now).flying = s.flying := by
  simp only [updateFlightData]
  split <;> try exact ⟨rfl, rfl, rfl⟩
  exact simMove_preserves _ now

/-- `_update_system_data` drains the battery exactly by
`battery_drain_rate / 60` while flying and leaves it unchanged
otherwise; it never touches the drain rate or the flying flag. -/
theorem updateSystemData_battery (s : DroneState) (now : ℕ) :
    (updateSystemData s now).initialBattery
      = (if s.flying = true then s.initialBattery - s.batteryDrainRate / 60
         else s.initialBattery) ∧
    (updateSystemData s now).batteryDrainRate = s.batteryDrainRate ∧
    (updateSystemData s now).flying = s.flying := by
  simp only [updateSystemData]
  split <;> rename_i hfly
  · split <;> exact ⟨rfl, rfl, rfl⟩
  · exact ⟨rfl, rfl, rfl⟩

/-- One tick drains the battery exactly by `battery_drain_rate / 60`
while flying and leaves it unchanged otherwise; ticks never change the
flying flag or the drain rate. -/
theorem tick_battery (s : DroneState) (r : Rand) (now : ℕ) :
    (tick s r now).initialBattery
      = (if s.flying = true then s.initialBattery - s.batteryDrainRate / 60
         else s.initialBattery) ∧
    (tick s r now).batteryDrainRate = s.batteryDrainRate ∧
    (tick s r now).flying = s.flying := by
  simp only [tick]
  by_cases hfly : s.flying = true
  · simp only [if_pos hfly]
    obtain ⟨hb, hd, hf⟩ := updateFlightData_preserves s r now
    obtain ⟨hb', hd', hf'⟩ := updateSystemData_battery (updateFlightData s r now) now
    rw [hb', hd', hf', hb, hd, hf]
    simp [hfly]
  · simp only [if_neg hfly]
    have h := updateSystemData_battery s now
    rwa [if_neg hfly] at h

/-- Every command method of `DroneDataManager` leaves the drain rate
unchanged. -/
theorem commands_preserve_drainRate (s : DroneState) (now : ℕ) (alti lat lng alt : ℚ)
    (wps : List Pos) :
    (armDrone s now).1.batteryDrainRate = s.batteryDrainRate ∧
    (disarmDrone s now).1.batteryDrainRate = s.batteryDrainRate ∧
    (takeoff s alti now).1.batteryDrainRate = s.batteryDrainRate ∧
    (land s now).1.batteryDrainRate = s.batteryDrainRate ∧
    (gotoPosition s lat lng alt).1.batteryDrainRate = s.batteryDrainRate ∧
    (startMission s wps now).1.batteryDrainRate = s.batteryDrainRate := by
  refine ⟨?_, ?_, ?_, ?_, ?_, ?_⟩ <;>
    · simp only [armDrone, disarmDrone, takeoff, land, gotoPosition, startMission]
      split <;> rfl

/-- Every reachable state keeps the drain rate fixed at the
`__init__` value `0.1` %/minute. -/
theorem reachable_drainRate (s : DroneState) (h : Reachable s) :
    s.batteryDrainRate = 1 / 10 := by
  induction h with
  | init => norm_num [initState]
  | tick r now _ ih => rw [(tick_battery _ r now).2.1, ih]
  | arm now _ ih => rw [(commands_preserve_drainRate _ now 0 0 0 0 []).1, ih]
  | disarm now _ ih => rw [(commands_preserve_drainRate _ now 0 0 0 0 []).2.1, ih]
  | takeoff alti now _ ih =>
      rw [(commands_preserve_drainRate _ now alti 0 0 0 []).2.2.1, ih]
  | land now _ ih => rw [(commands_preserve_drainRate _ now 0 0 0 0 []).2.2.2.1, ih]
  | goto lat lng alt _ ih =>
      rw [(commands_preserve_drainRate _ 0 0 lat lng alt []).2.2.2.2.1, ih]
  | mission wps now _ ih =>
      rw [(commands_preserve_drainRate _ now 0 0 0 0 wps).2.2.2.2.2, ih]

/-- `_update_system_data` touches only the battery and the alerts. -/
theorem updateSystemData_preserves (s : DroneState) (now : ℕ) :
    (updateSystemData s now).armed = s.armed ∧
    (updateSystemData s now).missionActive = s.missionActive ∧
    (updateSystemData s now).currentPosition = s.currentPosition ∧
    (updateSystemData s now).currentWaypoint = s.currentWaypoint ∧
    (updateSystemData s now).missionWaypoints = s.missionWaypoints := by
  simp only [updateSystemData]
  split
  · split <;> exact ⟨rfl, rfl, rfl, rfl, rfl⟩
  · exact ⟨rfl, rfl, rfl, rfl, rfl⟩

/-- With no active mission, `_update_flight_data` only drifts the
position and refreshes heading and speed: alerts, battery, flags and
the mission fields are untouched. -/
theorem updateFlightData_noMission (s : DroneState) (r : Rand) (now : ℕ)
    (h : s.missionActive = false) :
    (updateFlightData s r now).alerts = s.alerts ∧
    (updateFlightData s r now).missionActive = false ∧
    (updateFlightData s r now).flying = s.flying ∧
    (updateFlightData s r now).initialBattery = s.initialBattery ∧
    (updateFlightData s r now).batteryDrainRate = s.batteryDrainRate ∧
    (updateFlightData s r now).armed = s.armed := by
  simp only [updateFlightData]
  have hcond : (({ s with flightTime := s.flightTime + 1 } : DroneState).missionActive
      && !({ s with flightTime := s.flightTime + 1 } : DroneState).missionWaypoints.isEmpty)
      = false := by
    show (s.missionActive && !s.missionWaypoints.isEmpty) = false
    rw [h]
    rfl
  rw [hcond]
  exact ⟨rfl, by show s.missionActive = false; exact h, rfl, rfl, rfl, rfl⟩

/-- The low-battery emission of `_update_system_data`, characterized:
while flying, the warning of type `low_battery` is appended exactly
when the drained battery is below 20 and no `low_battery` alert is in
the buffer; in every other case the alert buffer is unchanged. -/
theorem updateSystemData_alerts (s : DroneState) (now : ℕ) :
    (s.flying = true → s.initialBattery - s.batteryDrainRate / 60 < 20 →
      s.alerts.any lowBatteryP = false →
      (updateSystemData s now).alerts
        = trimAlerts (s.alerts ++
            [mkAlert s.alerts.length "Low battery warning" "warning"
              (some "low_battery") now])) ∧
    (s.flying = false → (updateSystemData s now).alerts = s.alerts) ∧
    (s.alerts.any lowBatteryP = true → (updateSystemData s now).alerts = s.alerts) ∧
    (20 ≤ s.initialBattery - s.batteryDrainRate / 60 →
      (updateSystemData s now).alerts = s.alerts) := by
  simp only [updateSystemData]
  split <;> rename_i hfly
  · split <;> rename_i hcond
    · obtain ⟨hlt, hany⟩ := hcond
      refine ⟨fun _ _ _ => rfl, fun hf => absurd hfly (by simp [hf]), ?_, ?_⟩
      · intro ht
        rw [hany] at ht
        exact absurd ht (by decide)
      · intro hge
        exact absurd hlt (not_lt.mpr hge)
    · refine ⟨?_, fun hf => absurd hfly (by simp [hf]), fun _ => rfl, fun _ => rfl⟩
      intro _ hlt hany
      exact absurd ⟨hlt, hany⟩ hcond
  · have hf : s.flying = false := by
      cases hfs : s.flying
      · rfl
      · exact absurd hfs hfly
    exact ⟨fun ht => absurd ht (by rw [hf]; decide), fun _ => rfl,
      fun _ => rfl, fun _ => rfl⟩

/-- The armed-and-flying start state: battery 100, flying, default
drain rate. -/
theorem flyingState_facts :
    flyingState.initialBattery = 100 ∧ flyingState.flying = true ∧
    flyingState.batteryDrainRate = 1 / 10 := by
  have h15 : ¬ ((100 : ℚ) < 15) := by norm_num
  refine ⟨?_, ?_, ?_⟩ <;>
    simp [flyingState, takeoff, armDrone, addAlert, initState, if_neg h15]

/-- C7: across every tick of the update loop, `battery_pct` is
non-increasing while `flying=true` and unchanged while
`flying=false`. -/
theorem c7_battery_monotone (s : DroneState) (h : Reachable s) (r : Rand) (now : ℕ) :
    (s.flying = true → (tick s r now).initialBattery ≤ s.initialBattery) ∧
    (s.flying = false → (tick s r now).initialBattery = s.initialBattery) := by
  have hrate := reachable_drainRate s h
  have hb := (tick_battery s r now).1
  constructor
  · intro hf
    rw [hb, if_pos hf, hrate]
    norm_num
  · intro hf
    rw [hb, if_neg (by simp [hf])]

/-- Witness for `c7_battery_monotone`: the initial (grounded) state
keeps its battery over a tick; the armed-and-flying state drains. -/
theorem c7_witness :
    (initState.flying = false ∧
      (tick initState r0 0).initialBattery = initState.initialBattery) ∧
    (flyingState.flying = true ∧
      (tick flyingState r0 0).initialBattery ≤ flyingState.initialBattery) :=
  ⟨⟨rfl, (c7_battery_monotone initState Reachable.init r0 0).2 rfl⟩,
   ⟨flyingState_facts.2.1,
    (c7_battery_monotone flyingState
      (Reachable.takeoff 10 0 (Reachable.arm 0 Reachable.init)) r0 0).1
      flyingState_facts.2.1⟩⟩

/-! ### C10: clamped snapshot battery vs. unclamped internal battery -/

/-- Ticking from a reachable state stays reachable. -/
theorem tickSeq_reachable (s : DroneState) (f : ℕ → Rand × ℕ) (h : Reachable s) :
    ∀ n, Reachable (tickSeq s f n)
  | 0 => h
  | n + 1 => Reachable.tick (f n).1 (f n).2 (tickSeq_reachable s f h n)

/-- While flying, `n` ticks drain the battery by exactly
`n * battery_drain_rate / 60`, and the flying flag and drain rate are
untouched. -/
theorem tickSeq_battery (s : DroneState) (f : ℕ → Rand × ℕ) (hf : s.flying = true) :
    ∀ n, (tickSeq s f n).initialBattery
            = s.initialBattery - n * (s.batteryDrainRate / 60) ∧
         (tickSeq s f n).flying = true ∧
         (tickSeq s f n).batteryDrainRate = s.batteryDrainRate := by
  intro n
  induction n with
  | zero => simp [tickSeq, hf]
  | succ n ih =>
    obtain ⟨hb, hfly, hd⟩ := ih
    obtain ⟨hb', hd', hf'⟩ := tick_battery (tickSeq s f n) (f n).1 (f n).2
    have e : tickSeq s f (n + 1) = tick (tickSeq s f n) (f n).1 (f n).2 := rfl
    refine ⟨?_, ?_, ?_⟩
    · rw [e, hb', if_pos hfly, hb, hd]
      push_cast
      ring
    · rw [e, hf', hfly]
    · rw [e, hd', hd]

/-- C10: every snapshot clamps the reported battery with `max(0, ·)`,
so the reported values are never negative, while the internal
`initial_battery` of a reachable state can fall below zero under
continued flight — and `arm_drone` consults that unclamped value, so
arming fails there. -/
theorem c10_clamped_battery :
    (∀ s : DroneState, Reachable s →
      0 ≤ getDroneStatusBatteryPercentage s ∧ 0 ≤ getTelemetryBatteryRemaining s) ∧
    (∃ s : DroneState, Reachable s ∧ s.initialBattery < 0 ∧
      (armDrone s 0).2.success = false) := by
  constructor
  · intro s _
    exact ⟨le_max_left 0 _, le_max_left 0 _⟩
  · obtain ⟨hb100, hfly, hrate⟩ := flyingState_facts
    refine ⟨tickSeq flyingState detTicks 60001,
      tickSeq_reachable flyingState detTicks
        (Reachable.takeoff 10 0 (Reachable.arm 0 Reachable.init)) 60001, ?_, ?_⟩
    · have h := (tickSeq_battery flyingState detTicks hfly 60001).1
      rw [h, hb100, hrate]
      norm_num
    · have h := (tickSeq_battery flyingState detTicks hfly 60001).1
      have hneg : (tickSeq flyingState detTicks 60001).initialBattery < 15 := by
        rw [h, hb100, hrate]
        norm_num
      simp [armDrone, if_pos hneg]

/-- Witness for `c10_clamped_battery` at the initial state. -/
theorem c10_witness :
    Reachable initState ∧ 0 ≤ getDroneStatusBatteryPercentage initState :=
  ⟨Reachable.init, (c10_clamped_battery.1 initState Reachable.init).1⟩

/-! ### C4: low-battery warning deduplication -/

/-- Repeated `arm_drone` calls with enough battery: the battery, the
flags and the drain rate are untouched, and the alert buffer evolves
exactly by `armAlertsAux`. -/
theorem armTimes_characterization (s : DroneState) (h : 15 ≤ s.initialBattery) :
    ∀ n, (armTimes s n).initialBattery = s.initialBattery ∧
         (armTimes s n).flying = s.flying ∧
         (armTimes s n).missionActive = s.missionActive ∧
         (armTimes s n).batteryDrainRate = s.batteryDrainRate ∧
         (armTimes s n).alerts = armAlertsAux s.alerts n := by
  intro n
  induction n with
  | zero => exact ⟨rfl, rfl, rfl, rfl, rfl⟩
  | succ n ih =>
    obtain ⟨hb, hf, hm, hd, ha⟩ := ih
    have hnot : ¬ (armTimes s n).initialBattery < 15 := by
      rw [hb]
      exact not_lt.mpr h
    have e : armTimes s (n + 1) = (armDrone (armTimes s n) (n + 2)).1 := rfl
    rw [e]
    simp only [armDrone, if_neg hnot, addAlert]
    exact ⟨hb, hf, hm, hd, by rw [show armAlertsAux s.alerts (n + 1)
      = trimAlerts (armAlertsAux s.alerts n ++
          [mkAlert (armAlertsAux s.alerts n).length "Drone armed successfully"
            "info" none (n + 2)]) from rfl, ← ha]⟩

/-- One tick of `c4s0` emits the first low-battery warning. -/
theorem c4s1_eval :
    c4s1.alerts = [mkAlert 0 "Low battery warning" "warning" (some "low_battery") 1] ∧
    c4s1.flying = true ∧ c4s1.missionActive = false ∧
    c4s1.initialBattery = 39 / 2 - (1 / 10) / 60 ∧
    c4s1.batteryDrainRate = 1 / 10 := by
  have htick : c4s1 = updateSystemData (updateFlightData c4s0 r0 1) 1 := by
    show tick c4s0 r0 1 = _
    simp only [tick]
    rw [if_pos (show c4s0.flying = true from rfl)]
  obtain ⟨hal, hm, hf, hb, hd, _⟩ := updateFlightData_noMission c4s0 r0 1 rfl
  have hufly : (updateFlightData c4s0 r0 1).flying = true := by rw [hf]; rfl
  have hc4b : c4s0.initialBattery = 39 / 2 := rfl
  have hc4d : c4s0.batteryDrainRate = 1 / 10 := rfl
  have hlt : (updateFlightData c4s0 r0 1).initialBattery
      - (updateFlightData c4s0 r0 1).batteryDrainRate / 60 < 20 := by
    rw [hb, hd, hc4b, hc4d]
    norm_num
  have hany : (updateFlightData c4s0 r0 1).alerts.any lowBatteryP = false := by
    rw [hal]
    rfl
  have halerts := (updateSystemData_alerts (updateFlightData c4s0 r0 1) 1).1
    hufly hlt hany
  obtain ⟨hb', hd', hf'⟩ := updateSystemData_battery (updateFlightData c4s0 r0 1) 1
  obtain ⟨_, hm', _, _, _⟩ := updateSystemData_preserves (updateFlightData c4s0 r0 1) 1
  refine ⟨?_, ?_, ?_, ?_, ?_⟩
  · rw [htick, halerts, hal]
    rw [show c4s0.alerts = [] from rfl]
    rw [trimAlerts_of_le _ (by simp)]
    rfl
  · rw [htick, hf', hufly]
  · rw [htick, hm', hm]
  · rw [htick, hb', if_pos hufly, hb, hd, hc4b, hc4d]
  · rw [htick, hd', hd, hc4d]

/-- The 50 interleaved `arm_drone` commands preserve battery and flags
and leave exactly the 50 arm alerts in the buffer. -/
theorem c4s2_eval :
    c4s2.alerts = armAlertsAux
      [mkAlert 0 "Low battery warning" "warning" (some "low_battery") 1] 50 ∧
    c4s2.flying = true ∧ c4s2.missionActive = false ∧
    c4s2.initialBattery = 39 / 2 - (1 / 10) / 60 ∧
    c4s2.batteryDrainRate = 1 / 10 := by
  obtain ⟨ha1, hf1, hm1, hb1, hd1⟩ := c4s1_eval
  have h15 : 15 ≤ c4s1.initialBattery := by
    rw [hb1]
    norm_num
  obtain ⟨hb, hf, hm, hd, ha⟩ := armTimes_characterization c4s1 h15 50
  have e : c4s2 = armTimes c4s1 50 := rfl
  exact ⟨by rw [e, ha, ha1], by rw [e, hf, hf1], by rw [e, hm, hm1],
    by rw [e, hb, hb1], by rw [e, hd, hd1]⟩

/-- The tick after the eviction emits the warning a second time. -/
theorem c4s3_eval :
    c4s3.alerts = trimAlerts
      (armAlertsAux [mkAlert 0 "Low battery warning" "warning" (some "low_battery") 1] 50
        ++ [mkAlert (armAlertsAux
              [mkAlert 0 "Low battery warning" "warning" (some "low_battery") 1] 50).length
            "Low battery warning" "warning" (some "low_battery") 52]) ∧
    c4s3.initialBattery = 39 / 2 - (1 / 10) / 60 - (1 / 10) / 60 := by
  obtain ⟨ha2, hf2, hm2, hb2, hd2⟩ := c4s2_eval
  have htick : c4s3 = updateSystemData (updateFlightData c4s2 r0 52) 52 := by
    show tick c4s2 r0 52 = _
    simp only [tick]
    rw [if_pos hf2]
  obtain ⟨hal, hm, hf, hb, hd, _⟩ := updateFlightData_noMission c4s2 r0 52 hm2
  have hufly : (updateFlightData c4s2 r0 52).flying = true := by rw [hf, hf2]
  have hlt : (updateFlightData c4s2 r0 52).initialBattery
      - (updateFlightData c4s2 r0 52).batteryDrainRate / 60 < 20 := by
    rw [hb, hd, hb2, hd2]
    norm_num
  have hany : (updateFlightData c4s2 r0 52).alerts.any lowBatteryP = false := by
    rw [hal, ha2]
    set_option maxRecDepth 40000 in decide
  have halerts := (updateSystemData_alerts (updateFlightData c4s2 r0 52) 52).1
    hufly hlt hany
  obtain ⟨hb', _, _⟩ := updateSystemData_battery (updateFlightData c4s2 r0 52) 52
  constructor
  · rw [htick, halerts, hal, ha2]
  · rw [htick, hb', if_pos hufly, hb, hd, hb2, hd2]

/-- C4: the claim says the low-battery warning is never emitted twice
while the battery stays below 20. Deduplication is only by presence of
a `low_battery` alert in the 50-entry buffer: one tick of `c4s0` emits
the warning (timestamp 1); 50 interleaved `arm_drone` commands evict
it; the next tick emits it again (timestamp 52) although the battery
stayed below 20 throughout. -/
theorem c4_counterexample :
    c4s1.alerts.any (fun a => lowBatteryP a && a.timestamp == 1) = true ∧
    c4s2.alerts.any lowBatteryP = false ∧
    c4s3.alerts.any (fun a => lowBatteryP a && a.timestamp == 52) = true ∧
    c4s0.initialBattery < 20 ∧ c4s1.initialBattery < 20 ∧
    c4s2.initialBattery < 20 ∧ c4s3.initialBattery < 20 := by
  obtain ⟨ha1, _, _, hb1, _⟩ := c4s1_eval
  obtain ⟨ha2, _, _, hb2, _⟩ := c4s2_eval
  obtain ⟨ha3, hb3⟩ := c4s3_eval
  refine ⟨by rw [ha1]; rfl, by rw [ha2]; set_option maxRecDepth 40000 in decide,
    by rw [ha3]; set_option maxRecDepth 40000 in decide,
    by norm_num [c4s0, initState], by rw [hb1]; norm_num,
    by rw [hb2]; norm_num, by rw [hb3]; norm_num⟩

/-- C4 (amended): on a tick while flying, the warning Alert
"Low battery warning" (type `low_battery`) is appended exactly when the
drained battery is below 20 AND no alert of type `low_battery` is
currently in the buffer; hence it is emitted once when the battery
first crosses below 20 and not again while that alert remains in the
50-entry buffer, but it can be re-emitted while still below the
threshold once the alert has been evicted by 50 newer alerts. -/
theorem c4_low_battery_dedup (s : DroneState) (now : ℕ) :
    (s.flying = true → s.initialBattery - s.batteryDrainRate / 60 < 20 →
      s.alerts.any lowBatteryP = false →
      (updateSystemData s now).alerts
        = trimAlerts (s.alerts ++
            [mkAlert s.alerts.length "Low battery warning" "warning"
              (some "low_battery") now])) ∧
    (s.flying = false → (updateSystemData s now).alerts = s.alerts) ∧
    (s.alerts.any lowBatteryP = true → (updateSystemData s now).alerts = s.alerts) ∧
    (20 ≤ s.initialBattery - s.batteryDrainRate / 60 →
      (updateSystemData s now).alerts = s.alerts) :=
  updateSystemData_alerts s now

/-- Witness for `c4_low_battery_dedup`: one tick of the flying
low-battery state `c4s0` appends the warning alert. -/
theorem c4_witness :
    c4s0.flying = true ∧
    c4s0.initialBattery - c4s0.batteryDrainRate / 60 < 20 ∧
    c4s0.alerts.any lowBatteryP = false ∧
    (updateSystemData c4s0 1).alerts
      = trimAlerts (c4s0.alerts ++
          [mkAlert c4s0.alerts.length "Low battery warning" "warning"
            (some "low_battery") 1]) :=
  ⟨rfl, by norm_num [c4s0, initState], by decide,
   (c4_low_battery_dedup c4s0 1).1 rfl (by norm_num [c4s0, initState]) (by decide)⟩

/-! ### C6: convergence of the single-waypoint mission -/

/-- `axSteps` is zero exactly when the axis is within one step of its
target. -/
theorem axSteps_eq_zero_iff (cur target step : ℚ) (hstep : 0 < step) :
    axSteps cur target step = 0 ↔ |target - cur| ≤ step := by
  unfold axSteps
  split <;> rename_i h
  · simp [h]
  · simp only [h, iff_false]
    push_neg at h
    have h1 : (1 : ℚ) < |target - cur| / step := (one_lt_div hstep).mpr h
    have h2 : (1 : ℤ) < ⌈|target - cur| / step⌉ := by
      exact_mod_cast Int.lt_ceil.mpr (by exact_mod_cast h1)
    omega

/-- `axMove` leaves the position alone within one step of the target,
and otherwise shrinks the absolute difference by exactly one step. -/
theorem axMove_abs (cur target step : ℚ) (_hstep : 0 < step) :
    (|target - cur| ≤ step → axMove cur target step = cur) ∧
    (step < |target - cur| →
      |target - axMove cur target step| = |target - cur| - step) := by
  constructor
  · intro h
    exact if_neg (not_lt.mpr h)
  · intro h
    unfold axMove
    rw [if_pos h]
    by_cases hd : 0 < target - cur
    · rw [if_pos hd]
      have habs : |target - cur| = target - cur := abs_of_pos hd
      rw [habs] at h
      have : target - (cur + step) = target - cur - step := by ring
      rw [this, abs_of_pos (by linarith), habs]
    · rw [if_neg hd]
      push_neg at hd
      have habs : |target - cur| = -(target - cur) := abs_of_nonpos (by linarith)
      rw [habs] at h
      have : target - (cur + -step) = target - cur + step := by ring
      rw [this, abs_of_neg (by linarith), habs]
      ring

/-- Each tick of axis movement decrements `axSteps` (in ℕ). -/
theorem axSteps_move (cur target step : ℚ) (hstep : 0 < step) :
    axSteps (axMove cur target step) target step = axSteps cur target step - 1 := by
  obtain ⟨hstay, hmove⟩ := axMove_abs cur target step hstep
  by_cases h : |target - cur| ≤ step
  · rw [hstay h]
    have h0 : axSteps cur target step = 0 := (axSteps_eq_zero_iff cur target step hstep).mpr h
    omega
  · push_neg at h
    have habs := hmove h
    by_cases h2 : |target - cur| ≤ 2 * step
    · have hnew : |target - axMove cur target step| ≤ step := by
        rw [habs]; linarith
      have h0 : axSteps (axMove cur target step) target step = 0 :=
        (axSteps_eq_zero_iff _ target step hstep).mpr hnew
      have hceil : ⌈|target - cur| / step⌉ = 2 := by
        rw [Int.ceil_eq_iff]
        constructor
        · push_cast
          linarith [(one_lt_div hstep).mpr h]
        · push_cast
          rw [div_le_iff₀ hstep]
          linarith
      have hold : axSteps cur target step = 1 := by
        unfold axSteps
        rw [if_neg (not_le.mpr h), hceil]
        rfl
      omega
    · push_neg at h2
      have hnew2 : step < |target - axMove cur target step| := by
        rw [habs]; linarith
      have hdiv : (|target - cur| - step) / step = |target - cur| / step - 1 := by
        field_simp
      have hceil3 : (2 : ℤ) < ⌈|target - cur| / step⌉ := by
        refine Int.lt_ceil.mpr ?_
        push_cast
        rw [lt_div_iff₀ hstep]
        linarith
      unfold axSteps
      rw [if_neg (not_le.mpr hnew2), if_neg (not_le.mpr h), habs, hdiv,
        Int.ceil_sub_one]
      omega

/-- `_simulate_mission_movement` under a fresh single-waypoint
mission: move each axis one step toward the waypoint, and complete the
mission when the pre-move differences are all within tolerance. -/
theorem simMove_eq (wp : Pos) (s : DroneState) (now : ℕ)
    (hw : s.missionWaypoints = [wp]) (hc : s.currentWaypoint = 0) :
    simulateMissionMovement s now =
      if |wp.lat - s.currentPosition.lat| < moveSpeed * 2 ∧
         |wp.lng - s.currentPosition.lng| < moveSpeed * 2 ∧
         |wp.alt - s.currentPosition.alt| < 2 then
        addAlert
          { s with
            currentPosition :=
              ⟨axMove s.currentPosition.lat wp.lat moveSpeed,
               axMove s.currentPosition.lng wp.lng moveSpeed,
               axMove s.currentPosition.alt wp.alt 1⟩
            currentWaypoint := 1
            missionActive := false }
          "Mission completed successfully" "info" none now
      else
        { s with currentPosition :=
            ⟨axMove s.currentPosition.lat wp.lat moveSpeed,
             axMove s.currentPosition.lng wp.lng moveSpeed,
             axMove s.currentPosition.alt wp.alt 1⟩ } := by
  simp only [simulateMissionMovement, hw, hc]
  rfl

/-- An axis at least two steps away still has a move left. -/
theorem axSteps_pos (cur target step : ℚ) (hstep : 0 < step)
    (h : 2 * step ≤ |target - cur|) : 1 ≤ axSteps cur target step := by
  have hgt : step < |target - cur| := by linarith
  rcases Nat.eq_zero_or_pos (axSteps cur target step) with h0 | h1
  · exact absurd ((axSteps_eq_zero_iff cur target step hstep).mp h0)
      (not_le.mpr hgt)
  · exact h1

/-- A non-empty trimmed append keeps its appended last element, in a
form reusable after a second append. -/
theorem trimAlerts_append_last (l : List Alert) (a : Alert) :
    ∃ l', trimAlerts (l ++ [a]) = l' ++ [a] := by
  unfold trimAlerts
  split
  · refine ⟨l.drop ((l ++ [a]).length - 50), ?_⟩
    rw [List.drop_append_eq_append_drop]
    have h0 : (l ++ [a]).length - 50 - l.length = 0 := by
      simp only [List.length_append, List.length_cons, List.length_nil]
      omega
    rw [h0]
    rfl
  · exact ⟨l, rfl⟩

/-- Appending once more and trimming still keeps an element that was
last before the append. -/
theorem any_trimAlerts_append (l : List Alert) (b : Alert) (p : Alert → Bool)
    (a : Alert) (ha : ∃ l0, l = l0 ++ [a]) (hp : p a = true) :
    (trimAlerts (l ++ [b])).any p = true := by
  obtain ⟨l0, rfl⟩ := ha
  unfold trimAlerts
  split
  · rw [List.append_assoc, List.drop_append_eq_append_drop]
    have h0 : (l0 ++ ([a] ++ [b])).length - 50 - l0.length = 0 := by
      simp only [List.length_append, List.length_cons, List.length_nil]
      omega
    rw [h0]
    simp [hp]
  · simp [hp]

/-- `_update_system_data` either leaves the alert buffer alone or
appends one alert and trims. -/
theorem updateSystemData_alerts_shape (s : DroneState) (now : ℕ) :
    (updateSystemData s now).alerts = s.alerts ∨
    ∃ b, (updateSystemData s now).alerts = trimAlerts (s.alerts ++ [b]) := by
  simp only [updateSystemData]
  split
  · split
    · right
      exact ⟨_, rfl⟩
    · left
      rfl
  · left
    rfl

/-- One tick of a flying state with a fresh single-waypoint mission:
the position advances by `axMove` on each axis; if the pre-move
differences were all within tolerance, the mission completes (cursor 1,
inactive, completion alert in the buffer), otherwise the mission state
is unchanged. -/
theorem tick_mission (wp : Pos) (s : DroneState) (r : Rand) (now : ℕ)
    (hf : s.flying = true) (hm : s.missionActive = true)
    (hw : s.missionWaypoints = [wp]) (hc : s.currentWaypoint = 0) :
    (tick s r now).currentPosition =
      ⟨axMove s.currentPosition.lat wp.lat moveSpeed,
       axMove s.currentPosition.lng wp.lng moveSpeed,
       axMove s.currentPosition.alt wp.alt 1⟩ ∧
    (tick s r now).flying = true ∧
    (tick s r now).missionWaypoints = [wp] ∧
    (¬ (|wp.lat - s.currentPosition.lat| < moveSpeed * 2 ∧
        |wp.lng - s.currentPosition.lng| < moveSpeed * 2 ∧
        |wp.alt - s.currentPosition.alt| < 2) →
      (tick s r now).missionActive = true ∧ (tick s r now).currentWaypoint = 0) ∧
    ((|wp.lat - s.currentPosition.lat| < moveSpeed * 2 ∧
      |wp.lng - s.currentPosition.lng| < moveSpeed * 2 ∧
      |wp.alt - s.currentPosition.alt| < 2) →
      (tick s r now).currentWaypoint = 1 ∧ (tick s r now).missionActive = false ∧
      (tick s r now).alerts.any missionCompleteP = true) := by
  have htick : tick s r now = updateSystemData (updateFlightData s r now) now := by
    simp only [tick]
    rw [if_pos hf]
  have hcond : (({ s with flightTime := s.flightTime + 1 } : DroneState).missionActive
      && !({ s with flightTime := s.flightTime + 1 } : DroneState).missionWaypoints.isEmpty)
      = true := by
    show (s.missionActive && !s.missionWaypoints.isEmpty) = true
    rw [hm, hw]
    rfl
  have hsm := simMove_eq wp { s with flightTime := s.flightTime + 1 } now
    (by show s.missionWaypoints = [wp]; exact hw)
    (by show s.currentWaypoint = 0; exact hc)
  have hufd : updateFlightData s r now =
      { simulateMissionMovement { s with flightTime := s.flightTime + 1 } now with
        heading := qmod
          ((simulateMissionMovement { s with flightTime := s.flightTime + 1 } now).heading
            + r.dHeading) 360
        speed := if (simulateMissionMovement
            { s with flightTime := s.flightTime + 1 } now).missionActive then
          r.speedMission else r.speedIdle } := by
    simp only [updateFlightData]
    rw [if_pos hcond]
  obtain ⟨hA, hM, hP, hW, hWp⟩ := updateSystemData_preserves (updateFlightData s r now) now
  by_cases harr : |wp.lat - s.currentPosition.lat| < moveSpeed * 2 ∧
      |wp.lng - s.currentPosition.lng| < moveSpeed * 2 ∧
      |wp.alt - s.currentPosition.alt| < 2
  · rw [if_pos harr] at hsm
    refine ⟨?_, ?_, ?_, fun hn => absurd harr hn, fun _ => ⟨?_, ?_, ?_⟩⟩
    · rw [htick, hP, hufd, hsm]
      rfl
    · rw [htick, (updateSystemData_battery _ now).2.2, hufd, hsm]
      show s.flying = true
      exact hf
    · rw [htick, hWp, hufd, hsm]
      show s.missionWaypoints = [wp]
      exact hw
    · rw [htick, hW, hufd, hsm]
      rfl
    · rw [htick, hM, hufd, hsm]
      rfl
    · rw [htick]
      have hshape : ∃ l0, (updateFlightData s r now).alerts = l0 ++
          [mkAlert ({ s with flightTime := s.flightTime + 1 } : DroneState).alerts.length
            "Mission completed successfully" "info" none now] := by
        rw [hufd, hsm]
        show ∃ l0, (addAlert _ "Mission completed successfully" "info" none now).alerts
          = l0 ++ [_]
        exact trimAlerts_append_last _ _
      have hp : missionCompleteP (mkAlert
          ({ s with flightTime := s.flightTime + 1 } : DroneState).alerts.length
          "Mission completed successfully" "info" none now) = true := rfl
      rcases updateSystemData_alerts_shape (updateFlightData s r now) now with he | ⟨b, he⟩
      · rw [he]
        obtain ⟨l0, hl0⟩ := hshape
        rw [hl0]
        simp [hp]
      · rw [he]
        exact any_trimAlerts_append _ b _ _ hshape hp
  · rw [if_neg harr] at hsm
    refine ⟨?_, ?_, ?_, fun _ => ⟨?_, ?_⟩, fun hy => absurd hy harr⟩
    · rw [htick, hP, hufd, hsm]
    · rw [htick, (updateSystemData_battery _ now).2.2, hufd, hsm]
      show s.flying = true
      exact hf
    · rw [htick, hWp, hufd, hsm]
      show s.missionWaypoints = [wp]
      exact hw
    · rw [htick, hM, hufd, hsm]
      show s.missionActive = true
      exact hm
    · rw [htick, hW, hufd, hsm]
      show s.currentWaypoint = 0
      exact hc

/-- Peeling one tick off the front of an iterated tick run. -/
theorem tickSeq_shift (s : DroneState) (f : ℕ → Rand × ℕ) :
    ∀ n, tickSeq s f (n + 1)
      = tickSeq (tick s (f 0).1 (f 0).2) (fun i => f (i + 1)) n := by
  intro n
  induction n with
  | zero => rfl
  | succ n ih =>
    show tick (tickSeq s f (n + 1)) (f (n + 1)).1 (f (n + 1)).2 = _
    rw [ih]
    rfl

/-- Strong induction on the remaining movement steps: from any flying
state with a fresh single-waypoint mission, some tick run of length at
most `missionMeasure + 1` completes the mission. -/
theorem mission_converges_aux (wp : Pos) :
    ∀ m : ℕ, ∀ s : DroneState, ∀ f : ℕ → Rand × ℕ,
      s.flying = true → s.missionActive = true → s.missionWaypoints = [wp] →
      s.currentWaypoint = 0 → missionMeasure wp s = m →
      ∃ n, n ≤ m + 1 ∧ (tickSeq s f n).currentWaypoint = 1 ∧
        (tickSeq s f n).missionActive = false ∧
        (tickSeq s f n).alerts.any missionCompleteP = true := by
  intro m
  induction m using Nat.strong_induction_on with
  | _ m ih =>
    intro s f hf hm hw hc hmeas
    obtain ⟨hpos, hfly', hwp', hnot, hyes⟩ :=
      tick_mission wp s (f 0).1 (f 0).2 hf hm hw hc
    by_cases harr : |wp.lat - s.currentPosition.lat| < moveSpeed * 2 ∧
        |wp.lng - s.currentPosition.lng| < moveSpeed * 2 ∧
        |wp.alt - s.currentPosition.alt| < 2
    · obtain ⟨h1, h2, h3⟩ := hyes harr
      exact ⟨1, by omega, h1, h2, h3⟩
    · obtain ⟨hact', hcur'⟩ := hnot harr
      have hms : (0 : ℚ) < moveSpeed := by norm_num [moveSpeed]
      have hlat' : (tick s (f 0).1 (f 0).2).currentPosition.lat
          = axMove s.currentPosition.lat wp.lat moveSpeed := by rw [hpos]
      have hlng' : (tick s (f 0).1 (f 0).2).currentPosition.lng
          = axMove s.currentPosition.lng wp.lng moveSpeed := by rw [hpos]
      have halt' : (tick s (f 0).1 (f 0).2).currentPosition.alt
          = axMove s.currentPosition.alt wp.alt 1 := by rw [hpos]
      have hmeas' : missionMeasure wp (tick s (f 0).1 (f 0).2) =
          axSteps s.currentPosition.lat wp.lat moveSpeed - 1 +
          (axSteps s.currentPosition.lng wp.lng moveSpeed - 1) +
          (axSteps s.currentPosition.alt wp.alt 1 - 1) := by
        unfold missionMeasure
        rw [hlat', hlng', halt',
          axSteps_move s.currentPosition.lat wp.lat moveSpeed hms,
          axSteps_move s.currentPosition.lng wp.lng moveSpeed hms,
          axSteps_move s.currentPosition.alt wp.alt 1 one_pos]
      have hone : 1 ≤ axSteps s.currentPosition.lat wp.lat moveSpeed ∨
          1 ≤ axSteps s.currentPosition.lng wp.lng moveSpeed ∨
          1 ≤ axSteps s.currentPosition.alt wp.alt 1 := by
        rcases not_and_or.mp harr with h | h
        · exact Or.inl (axSteps_pos _ _ _ hms (by linarith [not_lt.mp h]))
        · rcases not_and_or.mp h with h' | h'
          · exact Or.inr (Or.inl (axSteps_pos _ _ _ hms (by linarith [not_lt.mp h'])))
          · exact Or.inr (Or.inr (axSteps_pos _ _ _ one_pos
              (by linarith [not_lt.mp h'])))
      have hlt : missionMeasure wp (tick s (f 0).1 (f 0).2) < m := by
        rw [hmeas', ← hmeas]
        unfold missionMeasure
        rcases hone with h | h | h <;> omega
      obtain ⟨n, hn, h1, h2, h3⟩ := ih _ hlt (tick s (f 0).1 (f 0).2)
        (fun i => f (i + 1)) hfly' hact' hwp' hcur' rfl
      refine ⟨n + 1, by omega, ?_, ?_, ?_⟩ <;> rw [tickSeq_shift] <;> assumption

/-- C6: from every flying state with an active fresh single-waypoint
mission at `(33.6844, 73.0479, 20)`, repeated ticks reach waypoint
cursor 1 and deactivate the mission — emitting the info Alert
"Mission completed successfully" — within a bounded, deterministic
number of ticks (`missionMeasure + 1`, a function of the start state
alone, independent of the random draws). -/
theorem c6_mission_convergence (s : DroneState) (f : ℕ → Rand × ℕ)
    (hf : s.flying = true) (hm : s.missionActive = true)
    (hw : s.missionWaypoints = [missionTarget]) (hc : s.currentWaypoint = 0) :
    ∃ n, n ≤ missionMeasure missionTarget s + 1 ∧
      (tickSeq s f n).currentWaypoint = 1 ∧
      (tickSeq s f n).missionActive = false ∧
      (tickSeq s f n).alerts.any missionCompleteP = true :=
  mission_converges_aux missionTarget (missionMeasure missionTarget s) s f
    hf hm hw hc rfl

/-- Witness for `c6_mission_convergence`: the drone at the base
position with the claim's single-waypoint mission installed. -/
theorem c6_witness :
    c6s0.flying = true ∧ c6s0.missionActive = true ∧
    c6s0.missionWaypoints = [missionTarget] ∧ c6s0.currentWaypoint = 0 ∧
    ∃ n, n ≤ missionMeasure missionTarget c6s0 + 1 ∧
      (tickSeq c6s0 detTicks n).currentWaypoint = 1 ∧
      (tickSeq c6s0 detTicks n).missionActive = false ∧
      (tickSeq c6s0 detTicks n).alerts.any missionCompleteP = true :=
  ⟨rfl, rfl, rfl, rfl, c6_mission_convergence c6s0 detTicks rfl rfl rfl rfl⟩

end DroneSystem
